import Mathlib

/-!
Shallow embedding of the tnt-kafka consumer bridge: the native Lua module
`src/tnt-kafka/tnt_kafka.c` and the Lua facade module (`Consumer.create`,
`Consumer:_poll_msg`, `Consumer:close`, `Consumer:subscribe`, ...).

Calls into librdkafka are modelled as explicit stub parameters (the result
the native library would return) and explicit state (queues, the offset
store, allocation flags), since librdkafka is an external black box for
this layer.  Lua errors raised by the runtime are modelled with `Except`.
-/

/-- A dynamically typed Lua value, restricted to the kinds the consumer
configuration code distinguishes. -/
inductive LuaValue where
  | nilv
  | str (s : String)
  | num (n : Int)
  | boolean (b : Bool)
  | table
deriving DecidableEq

/-- `lua_tostring`: yields the string for a string value, converts a number
to its decimal representation, and yields NULL (`none`) for every other
type.  (`lua_isstring` is true exactly when this is `some`.) -/
def lua_tostring : LuaValue → Option String
  | LuaValue.str s => some s
  | LuaValue.num n => some (toString n)
  | _ => none

/-- View of `rd_kafka_message_t` as used by the message accessors: topic
handle (`rkt`, modelled by its topic name), partition, offset, key pointer
and length, payload pointer and length.  A `none` pointer is C `NULL`;
the lengths are kept as `Int` to mirror the C comparisons `key_len <= 0`
and `len <= 0` literally. -/
structure RdMessage where
  rkt : String
  partition : Int
  offset : Int
  key : Option (List Char)
  key_len : Int
  payload : Option (List Char)
  len : Int
deriving DecidableEq

/-- `lua_consumer_msg_topic`: copies the topic name with `strcpy` into a
stack buffer declared as `char topic[sizeof(const_topic)]`, i.e. of size
`sizeof(const char *)` = 8.  The copy is well defined only when the name
plus its terminator fits (length < 8); otherwise the write overflows the
buffer (undefined behaviour, modelled as `none`). -/
def lua_consumer_msg_topic (m : RdMessage) : Option String :=
  if m.rkt.length < 8 then some m.rkt else none

/-- `lua_consumer_msg_partition`: pushes `rd_message->partition` as a Lua
number. -/
def lua_consumer_msg_partition (m : RdMessage) : Int :=
  m.partition

/-- `lua_consumer_msg_offset`: pushes `rd_message->offset` via
`luaL_pushint64`. -/
def lua_consumer_msg_offset (m : RdMessage) : Int :=
  m.offset

/-- `lua_consumer_msg_key`: returns no value at all when `key_len <= 0` or
the key pointer is NULL; otherwise pushes exactly `key_len` bytes starting
at the key pointer (`lua_pushlstring(key, key_len)`). -/
def lua_consumer_msg_key (m : RdMessage) : Option (List Char) :=
  if m.key_len ≤ 0 then none
  else match m.key with
    | none => none
    | some bs => some (bs.take m.key_len.toNat)

/-- `lua_consumer_msg_value`: same rule on `payload` / `len`. -/
def lua_consumer_msg_value (m : RdMessage) : Option (List Char) :=
  if m.len ≤ 0 then none
  else match m.payload with
    | none => none
    | some bs => some (bs.take m.len.toNat)

/-- Result of `strncpy(dest, src, n + 1)` followed by forced NUL
termination at index `n`, read back as a C string: the bytes of `src` up
to `n`, truncated at the first embedded NUL. -/
def cStrOfBytes (bs : List Char) (n : Nat) : String :=
  String.mk ((bs.take n).takeWhile (fun c => c != Char.ofNat 0))

/-- The key / value field of the debug string: the literal "NULL" when the
length is `<= 0` or the pointer is NULL, else the copied bytes. -/
def displayField (bytes : Option (List Char)) (len : Int) : String :=
  if len ≤ 0 then "NULL"
  else match bytes with
    | none => "NULL"
    | some bs => cStrOfBytes bs len.toNat

/-- `lua_consumer_msg_tostring`: the fixed `lua_pushfstring` format
`"Kafka Consumer Message: topic=%s partition=%d offset=%d key=%s value=%s"`
(the topic is passed directly from `rd_kafka_topic_name`, without the
8-byte buffer of the `topic()` accessor). -/
def lua_consumer_msg_tostring (m : RdMessage) : String :=
  "Kafka Consumer Message: topic=" ++ m.rkt ++
  " partition=" ++ toString m.partition ++
  " offset=" ++ toString m.offset ++
  " key=" ++ displayField m.key m.key_len ++
  " value=" ++ displayField m.payload m.len

/-- Type tag of an `rd_kafka_event_t`: a fetch event or some other event
kind, carrying its `rd_kafka_event_name`. -/
inductive RdEventType where
  | fetch
  | other (name : String)
deriving DecidableEq

/-- An `rd_kafka_event_t` returned by `rd_kafka_queue_poll`: its type and
the records it contains (a fetch event owns one or more records; their
backing memory lives and dies with the event). -/
structure RdKafkaEvent where
  etype : RdEventType
  records : List RdMessage
deriving DecidableEq

/-- `rd_kafka_event_name` of the event types we distinguish. -/
def rd_kafka_event_name : RdEventType → String
  | RdEventType.fetch => "Fetch"
  | RdEventType.other n => n

/-- The `msg_t` userdata: the record drawn from the event
(`rd_kafka_event_message_next`, `none` models its NULL result on an empty
event) plus the owning event itself. -/
structure MsgHandle where
  rd_message : Option RdMessage
  rd_event : RdKafkaEvent
deriving DecidableEq

/-- What `lua_consumer_poll_msg` leaves on the Lua stack: a message
userdata, `nil` plus an error string, or a single `nil`. -/
inductive PollMsgResult where
  | msg (h : MsgHandle)
  | errMsg (e : String)
  | nilRes
deriving DecidableEq

/-- The `lua_pushfstring` text for an unexpected event kind (apostrophes
written as the escape \x27). -/
def unexpectedEventMsg (n : String) : String :=
  "got unexpected event type of \x27" ++ n ++ "\x27"

/-- `lua_consumer_poll_msg`: one non-blocking `rd_kafka_queue_poll` on the
message queue, whose result is the `q` argument (`none` = queue empty).
A fetch event is wrapped: `rd_message` is the first record of the event
(`rd_kafka_event_message_next`) and `rd_event` the event itself.  Any
other event is destroyed and reported as `nil, err`.  An empty queue
gives a single `nil`. -/
def lua_consumer_poll_msg (q : Option RdKafkaEvent) : PollMsgResult :=
  match q with
  | none => PollMsgResult.nilRes
  | some ev =>
    match ev.etype with
    | RdEventType.fetch => PollMsgResult.msg ⟨ev.records.head?, ev⟩
    | RdEventType.other n => PollMsgResult.errMsg (unexpectedEventMsg n)

/-- `lua_consumer_msg_gc`: destroys the owned event
(`rd_kafka_event_destroy`) when the slot still holds a message, then
clears the slot.  Returns the event handed to `rd_kafka_event_destroy`
(if any) and the cleared slot. -/
def lua_consumer_msg_gc (slot : Option MsgHandle) :
    Option RdKafkaEvent × Option MsgHandle :=
  match slot with
  | some m => (some m.rd_event, none)
  | none => (none, none)

/-- One observable step of the `Consumer:_poll_msg` fiber (Loop B): a send
into the output channel, a `fiber.yield()`, a `fiber.sleep(0.01)`
throttle, or a logged error. -/
inductive FiberAction where
  | putMsg (h : MsgHandle)
  | yieldA
  | sleepThrottle
  | logError (e : String)
deriving DecidableEq

/-- One iteration of the `Consumer:_poll_msg` loop body on the given poll
result: `err ~= nil` logs and throttles; `msg ~= nil` sends the message
into `_output_ch` and yields; otherwise it throttles. -/
def pollMsgIteration (q : Option RdKafkaEvent) : List FiberAction :=
  match lua_consumer_poll_msg q with
  | PollMsgResult.errMsg e => [FiberAction.logError e, FiberAction.sleepThrottle]
  | PollMsgResult.msg h => [FiberAction.putMsg h, FiberAction.yieldA]
  | PollMsgResult.nilRes => [FiberAction.sleepThrottle]

/-- The `Consumer:_poll_msg` loop run over a finite prefix of native poll
results, as the concatenated trace of its iterations. -/
def drainLoop : List (Option RdKafkaEvent) → List FiberAction
  | [] => []
  | q :: rest => pollMsgIteration q ++ drainLoop rest

/-- The messages a trace sends into the output channel, in order. -/
def putsOf : List FiberAction → List MsgHandle
  | [] => []
  | FiberAction.putMsg h :: rest => h :: putsOf rest
  | _ :: rest => putsOf rest

/-- The message handles Loop B builds from a sequence of poll results:
one per fetch event, wrapping that event and its first record. -/
def fetchedHandles : List (Option RdKafkaEvent) → List MsgHandle
  | [] => []
  | none :: rest => fetchedHandles rest
  | some ev :: rest => MsgHandle.mk ev.records.head? ev :: fetchedHandles rest

/-- Side condition for the Loop B ordering claim: every poll result is
either empty or a fetch event carrying exactly one record. -/
def isFetchSingleton : Option RdKafkaEvent → Bool
  | none => true
  | some ev => ev.etype == RdEventType.fetch && ev.records.length == 1

/-- The iteration trace the spec expects from Loop B when no unexpected
event occurs: a throttle sleep on an empty poll, a channel send followed
by a yield on a fetch event. -/
def expectedIteration : Option RdKafkaEvent → List FiberAction
  | none => [FiberAction.sleepThrottle]
  | some ev => [FiberAction.putMsg ⟨ev.records.head?, ev⟩, FiberAction.yieldA]

/-- The `consumer_t` struct: which native resources the handle currently
holds.  Pointers that only matter as NULL / non-NULL (`rd_config`,
`rd_consumer`, the two queues) are Booleans; the subscription list keeps
its topics (`none` = not yet allocated). -/
structure CConsumer where
  rd_config : Bool
  rd_consumer : Bool
  topics : Option (List String)
  rd_event_queue : Bool
  rd_msg_queue : Bool
deriving DecidableEq

/-- Result of one `lua_consumer_subscribe` call: the updated struct, the
topic list passed to `rd_kafka_subscribe`, and the error string returned
to Lua (if any). -/
structure SubscribeOutcome where
  consumer : CConsumer
  applied : List String
  err : Option String
deriving DecidableEq

/-- `lua_consumer_subscribe`: lazily allocates `consumer->topics` when it
is NULL, appends every topic of the argument table
(`rd_kafka_topic_partition_list_add`), then applies the whole accumulated
list with `rd_kafka_subscribe`.  `nativeErr` is the error string
`rd_kafka_subscribe` would report (`none` = no error); the list keeps the
appended topics even when the native call fails. -/
def lua_consumer_subscribe (c : CConsumer) (topics : List String)
    (nativeErr : Option String) : SubscribeOutcome :=
  let base := match c.topics with
    | none => []
    | some l => l
  let newTopics := base ++ topics
  { consumer := { c with topics := some newTopics }
    applied := newTopics
    err := nativeErr }

/-- What `consumer_close` did to the native resources, plus the
`rd_kafka_resp_err_t` it returns (`none` = `RD_KAFKA_RESP_ERR_NO_ERROR`,
`some e` = the error of `rd_kafka_consumer_close`). -/
structure CloseEffects where
  msgQueueDestroyed : Bool
  eventQueueDestroyed : Bool
  topicsDestroyed : Bool
  freed : Bool
  err : Option String
deriving DecidableEq

/-- `consumer_close`: destroys the message queue (when non-NULL), then
calls `rd_kafka_consumer_close` (when the native client exists) — and on
an error from that call RETURNS the error immediately, before the event
queue, the subscription list and the struct itself are released.  Only
when that call succeeds (or there is no client) does it go on to destroy
the event queue and the topic list and `free` the struct.
`nativeCloseResult` is the result `rd_kafka_consumer_close` would
return. -/
def consumer_close (c : CConsumer) (nativeCloseResult : Option String) :
    CloseEffects :=
  let msgQ := c.rd_msg_queue
  match (if c.rd_consumer then nativeCloseResult else none) with
  | some e =>
    { msgQueueDestroyed := msgQ
      eventQueueDestroyed := false
      topicsDestroyed := false
      freed := false
      err := some e }
  | none =>
    { msgQueueDestroyed := msgQ
      eventQueueDestroyed := c.rd_event_queue
      topicsDestroyed := c.topics.isSome
      freed := true
      err := none }

/-- What `lua_consumer_close` leaves on the Lua stack plus the teardown it
performed: the first return value (boolean), the error string (second
return value, if any), and the `consumer_close` effects (`none` when the
userdata pointer was already NULL and nothing was done). -/
structure LuaCloseOutcome where
  ok : Bool
  err : Option String
  effects : Option CloseEffects
deriving DecidableEq

/-- `lua_consumer_close`: a NULL pointer in the userdata slot pushes
`false` and returns; otherwise it runs `consumer_close` and returns
`true` (plus the error string when `consumer_close` reported one).  Note
the function never clears the pointer slot itself — only the gc handler
does. -/
def lua_consumer_close (p : Option CConsumer) (nativeCloseResult : Option String) :
    LuaCloseOutcome :=
  match p with
  | none => { ok := false, err := none, effects := none }
  | some c =>
    let eff := consumer_close c nativeCloseResult
    { ok := true, err := eff.err, effects := some eff }

/-- The local offset store of the native client, as an association list
from (topic, partition) to the last stored offset (most recent first). -/
structure OffsetStore where
  stored : List ((String × Int) × Int)
deriving DecidableEq

/-- Lookup of the current stored offset for a (topic, partition). -/
def storeLookup : List ((String × Int) × Int) → String × Int → Option Int
  | [], _ => none
  | (k, v) :: rest, tp => if k = tp then some v else storeLookup rest tp

/-- `rd_kafka_offset_store(rkt, partition, offset)`: on success records
`offset` as the stored offset for (topic, partition); `nativeErr` is the
error the native call would report (`none` = success). -/
def rd_kafka_offset_store (s : OffsetStore) (t : String) (p : Int) (o : Int)
    (nativeErr : Option String) : OffsetStore × Option String :=
  match nativeErr with
  | some e => (s, some e)
  | none => (⟨((t, p), o) :: s.stored⟩, none)

/-- `lua_consumer_store_offset`: `lua_check_consumer_msg` raises a Lua
error when the userdata slot no longer holds a message (modelled with
`Except.error`); dereferencing a NULL `rd_message` is undefined behaviour
(also modelled as an error).  Otherwise it calls `rd_kafka_offset_store`
with exactly the record's topic handle, partition and offset, and returns
`nil` on success or the native error string. -/
def lua_consumer_store_offset (slot : Option MsgHandle) (s : OffsetStore)
    (nativeErr : Option String) : Except String (OffsetStore × Option String) :=
  match slot with
  | none => Except.error
      "Kafka consumer message fatal error: failed to retrieve message from lua stack!"
  | some h =>
    match h.rd_message with
    | none => Except.error "NULL rd_message dereference"
    | some m =>
      Except.ok (rd_kafka_offset_store s m.rkt m.partition m.offset nativeErr)

/-- The configuration table handed to `create_consumer`: the value stored
under key "brokers" and, when the value under key "options" is a table,
its key/value pairs in `lua_next` order (`none` when it is not a
table). -/
structure ConfTable where
  brokers : LuaValue
  options : Option (List (LuaValue × LuaValue))
deriving DecidableEq

/-- Stubbed results of the native calls `lua_create_consumer` makes:
`rd_kafka_conf_set` per key/value (`some` = error string),
`rd_kafka_new` (`some` = construction failed with that diagnostic), and
`rd_kafka_brokers_add` (number of valid brokers for the given list). -/
structure NativeStub where
  conf_set : String → String → Option String
  kafka_new : Option String
  brokers_add : String → Nat

/-- The error message for a missing or non-string "brokers" entry
(apostrophes written as the escape \x27). -/
def brokersErrMsg : String :=
  "consumer config table must have non nil key \x27brokers\x27 which contains string"

/-- The error message for a non-string options key or value. -/
def optionsErrMsg : String :=
  "consumer config options must contains only string keys and string values"

/-- The error message when `rd_kafka_brokers_add` adds zero brokers. -/
def noBrokersErrMsg : String :=
  "No valid brokers specified"

/-- The options loop of `lua_create_consumer`: for each pair, if the value
or the key is not a string (`lua_isstring`, i.e. `lua_tostring` gives
NULL), fail with `optionsErrMsg`; otherwise apply `rd_kafka_conf_set` and
fail with its diagnostic on error.  `none` = the whole loop succeeded. -/
def applyOptions (stub : NativeStub) : List (LuaValue × LuaValue) → Option String
  | [] => none
  | (k, v) :: rest =>
    match lua_tostring v, lua_tostring k with
    | some vs, some ks =>
      match stub.conf_set ks vs with
      | some e => some e
      | none => applyOptions stub rest
    | _, _ => some optionsErrMsg

/-- Observable outcome of `lua_create_consumer`: the Lua result (consumer
userdata, or `nil` plus an error string modelled as `Except.error`),
whether `rd_kafka_conf_new` had been called before returning, whether
`rd_kafka_conf_destroy` was ever called on the failure path (the code
never does), whether the native client (`rd_kafka_new`) had been
constructed, and the consumer struct on success. -/
structure CreateOutcome where
  result : Except String Unit
  confAllocated : Bool
  confDestroyed : Bool
  clientAllocated : Bool
  consumer : Option CConsumer

/-- `lua_create_consumer`: reads "brokers" with `lua_tostring` and fails
with `brokersErrMsg` when it is NULL — before any native allocation.
Then it allocates the native config (`rd_kafka_conf_new`,
`rd_kafka_topic_conf_new`), walks the "options" table, constructs the
client (`rd_kafka_new`), registers the brokers, acquires the two queues
and mallocs the `consumer_t`.  Every failure path after the brokers check
returns `nil` plus the error WITHOUT destroying the already-allocated
config object. -/
def lua_create_consumer (cfg : ConfTable) (stub : NativeStub) : CreateOutcome :=
  match lua_tostring cfg.brokers with
  | none =>
    { result := Except.error brokersErrMsg
      confAllocated := false
      confDestroyed := false
      clientAllocated := false
      consumer := none }
  | some brokers =>
    let optionsResult := match cfg.options with
      | none => none
      | some pairs => applyOptions stub pairs
    match optionsResult with
    | some e =>
      { result := Except.error e
        confAllocated := true
        confDestroyed := false
        clientAllocated := false
        consumer := none }
    | none =>
      match stub.kafka_new with
      | some e =>
        { result := Except.error e
          confAllocated := true
          confDestroyed := false
          clientAllocated := false
          consumer := none }
      | none =>
        if stub.brokers_add brokers = 0 then
          { result := Except.error noBrokersErrMsg
            confAllocated := true
            confDestroyed := false
            clientAllocated := true
            consumer := none }
        else
          { result := Except.ok ()
            confAllocated := true
            confDestroyed := false
            clientAllocated := true
            consumer := some
              { rd_config := true
                rd_consumer := true
                topics := none
                rd_event_queue := true
                rd_msg_queue := true } }

/-- The Lua `Consumer` facade state: `_consumer` (the userdata, `nil`
after `close`), the liveness of the two polling fibers, and whether
`_output_ch` has been closed. -/
structure Facade where
  consumer : Option CConsumer
  pollFiberAlive : Bool
  pollMsgFiberAlive : Bool
  outputClosed : Bool
deriving DecidableEq

/-- Observable outcome of `Consumer.create`: the returned facade or the
returned error string, whether `tnt_kafka.create_consumer` was ever
invoked, and whether the `_poll` / `_poll_msg` fibers were spawned. -/
structure FacadeCreateOutcome where
  facade : Option Facade
  err : Option String
  nativeAttempted : Bool
  pollFiberSpawned : Bool
  pollMsgFiberSpawned : Bool

/-- `Consumer.create`: a `nil` config returns `nil, "config must not be
nil"` at once, without touching the native module; an error from
`tnt_kafka.create_consumer` is returned as `nil, err` before either
polling fiber is spawned; on success both fibers are spawned and the
facade is returned with no error. -/
def Consumer_create (config : Option ConfTable) (stub : NativeStub) :
    FacadeCreateOutcome :=
  match config with
  | none =>
    { facade := none
      err := some "config must not be nil"
      nativeAttempted := false
      pollFiberSpawned := false
      pollMsgFiberSpawned := false }
  | some cfg =>
    let out := lua_create_consumer cfg stub
    match out.result with
    | Except.error e =>
      { facade := none
        err := some e
        nativeAttempted := true
        pollFiberSpawned := false
        pollMsgFiberSpawned := false }
    | Except.ok _ =>
      { facade := some
          { consumer := out.consumer
            pollFiberAlive := true
            pollMsgFiberAlive := true
            outputClosed := false }
        err := none
        nativeAttempted := true
        pollFiberSpawned := true
        pollMsgFiberSpawned := true }

/-- `Consumer:close`: cancels both polling fibers, closes `_output_ch`,
then calls `self._consumer:close()` and sets `self._consumer = nil`,
returning the error (second return value) of the native close.  When
`self._consumer` is already `nil` — as it is after a first `close` — the
method call on `nil` raises a Lua runtime error (modelled with
`Except.error`). -/
def Consumer_close (f : Facade) (nativeCloseResult : Option String) :
    Except String (Facade × Option String) :=
  let f1 := { f with pollFiberAlive := false
                     pollMsgFiberAlive := false
                     outputClosed := true }
  match f.consumer with
  | none => Except.error "attempt to index a nil value"
  | some c =>
    let out := lua_consumer_close (some c) nativeCloseResult
    Except.ok ({ f1 with consumer := none }, out.err)

/-! Concrete values used to exercise the theorems. -/

/-- The round-trip record of the spec: key "k1", value "v1", topic
"orders", partition 0, offset 42. -/
def ordersMsg : RdMessage :=
  { rkt := "orders", partition := 0, offset := 42
    key := some ['k', '1'], key_len := 2
    payload := some ['v', '1'], len := 2 }

/-- A record with NULL key and payload and zero lengths. -/
def noPayloadMsg : RdMessage :=
  { rkt := "t", partition := 1, offset := 7
    key := none, key_len := 0
    payload := none, len := 0 }

/-- The offset-store scenario record: partition 3, offset 99. -/
def storeMsg : RdMessage :=
  { rkt := "orders", partition := 3, offset := 99
    key := none, key_len := 0
    payload := some ['x'], len := 1 }

/-- Two further records for the drain-loop scenarios. -/
def recA : RdMessage :=
  { rkt := "t", partition := 0, offset := 1
    key := none, key_len := 0
    payload := some ['a'], len := 1 }

def recB : RdMessage :=
  { rkt := "t", partition := 0, offset := 2
    key := none, key_len := 0
    payload := some ['b'], len := 1 }

/-- A fetch event holding the offset-store scenario record. -/
def storeEvent : RdKafkaEvent :=
  { etype := RdEventType.fetch, records := [storeMsg] }

/-- A valid message handle for the offset-store scenario. -/
def storeHandle : MsgHandle :=
  { rd_message := some storeMsg, rd_event := storeEvent }

/-- An alternating no-data / one-record sequence of poll results. -/
def demoEvs : List (Option RdKafkaEvent) :=
  [none, some { etype := RdEventType.fetch, records := [recA] },
   none, some { etype := RdEventType.fetch, records := [recB] }]

/-- A fetch event carrying two records. -/
def twoRecordEvent : RdKafkaEvent :=
  { etype := RdEventType.fetch, records := [recA, recB] }

/-- A freshly created `consumer_t` (all resources held, no topics yet). -/
def freshCConsumer : CConsumer :=
  { rd_config := true, rd_consumer := true, topics := none
    rd_event_queue := true, rd_msg_queue := true }

/-- A consumer with an allocated subscription list. -/
def fullCConsumer : CConsumer :=
  { rd_config := true, rd_consumer := true, topics := some ["orders"]
    rd_event_queue := true, rd_msg_queue := true }

/-- A live facade as `Consumer.create` returns it. -/
def demoFacade : Facade :=
  { consumer := some freshCConsumer, pollFiberAlive := true
    pollMsgFiberAlive := true, outputClosed := false }

/-- A native stub on which every call succeeds. -/
def stubOk : NativeStub :=
  { conf_set := fun _ _ => none, kafka_new := none, brokers_add := fun _ => 1 }

/-- A config whose options table maps the string "debug" to a boolean. -/
def badOptionsCfg : ConfTable :=
  { brokers := LuaValue.str "localhost:9092"
    options := some [(LuaValue.str "debug", LuaValue.boolean true)] }

/-- A config with no "brokers" entry. -/
def noBrokersCfg : ConfTable :=
  { brokers := LuaValue.nilv, options := none }

/-! Theorems about the claims. -/

/-- Claim C5: for every record whose key (resp. value) has zero or
negative length or a NULL pointer, `key()` (resp. `value()`) returns no
value at all; for every record with a non-NULL key/value of positive
length, the accessor returns exactly those bytes of exactly that
length. -/
theorem msg_key_value_absence :
    (∀ m : RdMessage, (m.key_len ≤ 0 ∨ m.key = none) →
      lua_consumer_msg_key m = none) ∧
    (∀ m : RdMessage, (m.len ≤ 0 ∨ m.payload = none) →
      lua_consumer_msg_value m = none) ∧
    (∀ m : RdMessage, ∀ ks : List Char, m.key = some ks →
      m.key_len = (ks.length : Int) → 0 < ks.length →
      lua_consumer_msg_key m = some ks) ∧
    (∀ m : RdMessage, ∀ vs : List Char, m.payload = some vs →
      m.len = (vs.length : Int) → 0 < vs.length →
      lua_consumer_msg_value m = some vs) := by
  refine ⟨?_, ?_, ?_, ?_⟩
  · intro m h
    rcases h with h | h
    · simp [lua_consumer_msg_key, h]
    · simp [lua_consumer_msg_key, h]
  · intro m h
    rcases h with h | h
    · simp [lua_consumer_msg_value, h]
    · simp [lua_consumer_msg_value, h]
  · intro m ks hk hl hp
    have hnot : ¬ ((ks.length : Int) ≤ 0) := by omega
    simp [lua_consumer_msg_key, hk, hl, hnot]
  · intro m vs hv hl hp
    have hnot : ¬ ((vs.length : Int) ≤ 0) := by omega
    simp [lua_consumer_msg_value, hv, hl, hnot]

/-- Witness for C5 on concrete records. -/
theorem msg_key_value_absence_witness :
    lua_consumer_msg_key noPayloadMsg = none ∧
    lua_consumer_msg_value noPayloadMsg = none ∧
    lua_consumer_msg_key ordersMsg = some ['k', '1'] ∧
    lua_consumer_msg_value ordersMsg = some ['v', '1'] :=
  ⟨msg_key_value_absence.1 noPayloadMsg (Or.inl (by decide)),
   msg_key_value_absence.2.1 noPayloadMsg (Or.inl (by decide)),
   msg_key_value_absence.2.2.1 ordersMsg ['k', '1'] rfl (by decide) (by decide),
   msg_key_value_absence.2.2.2 ordersMsg ['v', '1'] rfl (by decide) (by decide)⟩

/-- Claim C6: the record with key "k1", value "v1", topic "orders",
partition 0, offset 42 round-trips through every accessor, and the debug
string has the fixed format with all five fields, substituting the
literal "NULL" for an absent key or value. -/
theorem msg_roundtrip_orders :
    lua_consumer_msg_topic ordersMsg = some "orders" ∧
    lua_consumer_msg_partition ordersMsg = 0 ∧
    lua_consumer_msg_offset ordersMsg = 42 ∧
    lua_consumer_msg_key ordersMsg = some ['k', '1'] ∧
    lua_consumer_msg_value ordersMsg = some ['v', '1'] ∧
    lua_consumer_msg_tostring ordersMsg =
      "Kafka Consumer Message: topic=orders partition=0 offset=42 key=k1 value=v1" ∧
    lua_consumer_msg_tostring noPayloadMsg =
      "Kafka Consumer Message: topic=t partition=1 offset=7 key=NULL value=NULL" := by
  refine ⟨by decide, rfl, rfl, by decide, by decide, by decide, by decide⟩

/-- Claim C3: subscribe accumulates rather than replaces — for every
consumer, subscribing to a first topic and then to a second leaves the
in-memory subscription list containing both, and that combined list is
exactly what `rd_kafka_subscribe` is given on the second call. -/
theorem subscribe_accumulates (c : CConsumer) (t1 t2 : String)
    (e1 e2 : Option String) :
    let o1 := lua_consumer_subscribe c [t1] e1
    let o2 := lua_consumer_subscribe o1.consumer [t2] e2
    t1 ∈ o2.applied ∧ t2 ∈ o2.applied ∧
    o2.consumer.topics = some o2.applied ∧
    o2.applied = (match c.topics with | none => [] | some l => l) ++ [t1, t2] := by
  cases hc : c.topics with
  | none => simp [lua_consumer_subscribe, hc]
  | some l => simp [lua_consumer_subscribe, hc]

/-- Claim C8: for every valid message handle with record (t, p, o),
`store_offset` calls the native offset-store primitive with exactly
(t, p, o), so the stored offset for that topic/partition becomes o; it
returns no error when the native call succeeds and exactly the native
error string when it fails. -/
theorem store_offset_stores_exact (s : OffsetStore) (h : MsgHandle)
    (m : RdMessage) (hm : h.rd_message = some m) :
    lua_consumer_store_offset (some h) s none =
      Except.ok (⟨((m.rkt, m.partition), m.offset) :: s.stored⟩, none) ∧
    storeLookup (((m.rkt, m.partition), m.offset) :: s.stored)
      (m.rkt, m.partition) = some m.offset ∧
    ∀ e, lua_consumer_store_offset (some h) s (some e) =
      Except.ok (s, some e) := by
  refine ⟨?_, ?_, ?_⟩
  · simp [lua_consumer_store_offset, hm, rd_kafka_offset_store]
  · simp [storeLookup]
  · intro e
    simp [lua_consumer_store_offset, hm, rd_kafka_offset_store]

/-- Witness for C8: storing the offset of a record at partition 3,
offset 99 makes the stored offset for that topic/partition 99. -/
theorem store_offset_stores_exact_witness :
    storeHandle.rd_message = some storeMsg ∧
    lua_consumer_store_offset (some storeHandle) ⟨[]⟩ none =
      Except.ok (⟨[(("orders", 3), 99)]⟩, none) ∧
    storeLookup [(("orders", 3), 99)] ("orders", 3) = some 99 ∧
    ∀ e, lua_consumer_store_offset (some storeHandle) ⟨[]⟩ (some e) =
      Except.ok (⟨[]⟩, some e) := by
  have h := store_offset_stores_exact ⟨[]⟩ storeHandle storeMsg rfl
  exact ⟨rfl, h.1, h.2.1, h.2.2⟩

/-- Claim C9: a fetch event with more than one record is wrapped into a
single message handle holding only the FIRST record; the remaining
records are never sent to the output channel, and collecting that handle
destroys the whole event, and with it the undelivered records. -/
theorem poll_msg_first_record_only (ev : RdKafkaEvent) (r1 : RdMessage)
    (rest : List RdMessage) (ht : ev.etype = RdEventType.fetch)
    (hr : ev.records = r1 :: rest) :
    lua_consumer_poll_msg (some ev) = PollMsgResult.msg ⟨some r1, ev⟩ ∧
    putsOf (pollMsgIteration (some ev)) = [⟨some r1, ev⟩] ∧
    lua_consumer_msg_gc (some ⟨some r1, ev⟩) = (some ev, none) ∧
    ∀ r ∈ rest, r ∈ ev.records := by
  obtain ⟨et, recs⟩ := ev
  simp only at ht hr
  subst ht
  subst hr
  refine ⟨rfl, rfl, rfl, ?_⟩
  intro r hmem
  exact List.mem_cons_of_mem _ hmem

/-- Witness for C9 on a two-record fetch event. -/
theorem poll_msg_first_record_only_witness :
    twoRecordEvent.etype = RdEventType.fetch ∧
    twoRecordEvent.records = recA :: [recB] ∧
    (lua_consumer_poll_msg (some twoRecordEvent) =
       PollMsgResult.msg ⟨some recA, twoRecordEvent⟩ ∧
     putsOf (pollMsgIteration (some twoRecordEvent)) =
       [⟨some recA, twoRecordEvent⟩] ∧
     lua_consumer_msg_gc (some ⟨some recA, twoRecordEvent⟩) =
       (some twoRecordEvent, none) ∧
     ∀ r ∈ [recB], r ∈ twoRecordEvent.records) :=
  ⟨rfl, rfl, poll_msg_first_record_only twoRecordEvent recA [recB] rfl rfl⟩

/-- On an empty poll or a single-record fetch event, one Loop B iteration
is exactly a throttle sleep, respectively a channel send followed by a
yield. -/
lemma pollMsgIteration_fetch (q : Option RdKafkaEvent)
    (h : isFetchSingleton q = true) :
    pollMsgIteration q = expectedIteration q := by
  cases q with
  | none => rfl
  | some ev =>
    obtain ⟨et, recs⟩ := ev
    simp [isFetchSingleton] at h
    obtain ⟨h1, -⟩ := h
    subst h1
    rfl

/-- The messages Loop B sends are exactly the wrapped fetch events, in
delivery order, when every poll result is empty or a singleton fetch. -/
lemma putsOf_drainLoop : ∀ evs : List (Option RdKafkaEvent),
    (∀ q ∈ evs, isFetchSingleton q = true) →
    putsOf (drainLoop evs) = fetchedHandles evs
  | [], _ => rfl
  | q :: rest, h => by
    have hq := h q (List.mem_cons_self q rest)
    have hrest : ∀ x ∈ rest, isFetchSingleton x = true :=
      fun x hx => h x (List.mem_cons_of_mem q hx)
    have ih := putsOf_drainLoop rest hrest
    cases q with
    | none =>
      simp [drainLoop, pollMsgIteration, lua_consumer_poll_msg, putsOf,
            fetchedHandles, ih]
    | some ev =>
      obtain ⟨et, recs⟩ := ev
      simp [isFetchSingleton] at hq
      obtain ⟨h1, -⟩ := hq
      subst h1
      simp [drainLoop, pollMsgIteration, lua_consumer_poll_msg, putsOf,
            fetchedHandles, ih]

/-- Claim C4: over any sequence of poll results in which no-data and
one-record fetch responses alternate (more generally: contain no
unexpected events), Loop B forwards exactly those records, each wrapped
in a message handle, to the output channel in delivery order, with a
throttle sleep exactly after an empty poll and a yield after each
successful send. -/
theorem drain_loop_forwards_in_order (evs : List (Option RdKafkaEvent))
    (h : ∀ q ∈ evs, isFetchSingleton q = true) :
    putsOf (drainLoop evs) = fetchedHandles evs ∧
    ∀ q ∈ evs, pollMsgIteration q = expectedIteration q :=
  ⟨putsOf_drainLoop evs h, fun q hq => pollMsgIteration_fetch q (h q hq)⟩

/-- Witness for C4 on a concrete alternating sequence. -/
theorem drain_loop_forwards_in_order_witness :
    (∀ q ∈ demoEvs, isFetchSingleton q = true) ∧
    (putsOf (drainLoop demoEvs) = fetchedHandles demoEvs ∧
     ∀ q ∈ demoEvs, pollMsgIteration q = expectedIteration q) :=
  ⟨by decide, drain_loop_forwards_in_order demoEvs (by decide)⟩

/-- Counterexample to claim C1 as stated: after a first successful
`close()` of the facade, a second `close()` does NOT return success — it
raises a Lua runtime error, because `Consumer:close` sets
`self._consumer = nil` and a later call invokes `:close()` on that nil
field. -/
theorem close_second_call_raises_cex :
    Consumer_close demoFacade none =
      Except.ok ({ consumer := none, pollFiberAlive := false
                   pollMsgFiberAlive := false, outputClosed := true }, none) ∧
    Consumer_close { consumer := none, pollFiberAlive := false
                     pollMsgFiberAlive := false, outputClosed := true } none =
      Except.error "attempt to index a nil value" :=
  ⟨rfl, rfl⟩

/-- Claim C1 amended: after a first successful `close()` the facade's
`_consumer` field is nil, and every subsequent `close()` on the same
facade raises a Lua runtime error (method call on a nil field) instead of
returning success; idempotent close is not implemented at the facade
level. -/
theorem close_second_call_raises (f : Facade) (c : CConsumer)
    (r1 r2 : Option String) (h : f.consumer = some c) :
    (∃ f1 e1, Consumer_close f r1 = Except.ok (f1, e1) ∧ f1.consumer = none) ∧
    ∀ f1 e1, Consumer_close f r1 = Except.ok (f1, e1) →
      Consumer_close f1 r2 = Except.error "attempt to index a nil value" := by
  have h1 : Consumer_close f r1 =
      Except.ok ({ consumer := none, pollFiberAlive := false
                   pollMsgFiberAlive := false, outputClosed := true },
                 (lua_consumer_close (some c) r1).err) := by
    simp [Consumer_close, h]
  refine ⟨⟨_, _, h1, rfl⟩, ?_⟩
  intro f1 e1 hok
  rw [h1] at hok
  injection hok with h2
  have hf1 : f1 = { consumer := none, pollFiberAlive := false
                    pollMsgFiberAlive := false, outputClosed := true } :=
    (congrArg Prod.fst h2).symm
  subst hf1
  rfl

/-- Witness for the amended C1 at concrete inputs. -/
theorem close_second_call_raises_witness :
    demoFacade.consumer = some freshCConsumer ∧
    ((∃ f1 e1, Consumer_close demoFacade none = Except.ok (f1, e1) ∧
        f1.consumer = none) ∧
     ∀ f1 e1, Consumer_close demoFacade none = Except.ok (f1, e1) →
       Consumer_close f1 none = Except.error "attempt to index a nil value") :=
  ⟨rfl, close_second_call_raises demoFacade freshCConsumer none none rfl⟩

/-- Counterexample to claim C7 as stated: when `rd_kafka_consumer_close`
fails, `consumer_close` returns the error immediately — the event queue
and the subscription list are NOT released and the handle is NOT freed
(only the message queue had already been destroyed). -/
theorem close_error_skips_teardown_cex :
    consumer_close fullCConsumer (some "Local: Timed out") =
      { msgQueueDestroyed := true, eventQueueDestroyed := false
        topicsDestroyed := false, freed := false
        err := some "Local: Timed out" } :=
  rfl

/-- Claim C7 amended: on the first `close()`, after the native record
queue is destroyed, a failure of `rd_kafka_consumer_close` makes
`consumer_close` return that error immediately: the event queue and the
subscription list are not released and the handle is not freed. -/
theorem close_error_skips_teardown (c : CConsumer) (e : String)
    (hc : c.rd_consumer = true) :
    consumer_close c (some e) =
      { msgQueueDestroyed := c.rd_msg_queue, eventQueueDestroyed := false
        topicsDestroyed := false, freed := false, err := some e } := by
  simp [consumer_close, hc]

/-- Witness for the amended C7 at a concrete consumer. -/
theorem close_error_skips_teardown_witness :
    fullCConsumer.rd_consumer = true ∧
    consumer_close fullCConsumer (some "Broker: Operation timed out") =
      { msgQueueDestroyed := fullCConsumer.rd_msg_queue
        eventQueueDestroyed := false, topicsDestroyed := false
        freed := false, err := some "Broker: Operation timed out" } :=
  ⟨rfl, close_error_skips_teardown fullCConsumer "Broker: Operation timed out" rfl⟩

/-- Counterexample to claim C2 as stated: a config whose options table
holds a boolean value fails with the options `ConfigError`, but at that
point the native config object HAS already been allocated
(`rd_kafka_conf_new` runs before the options are inspected) and it is
never destroyed on this path. -/
theorem create_options_error_after_alloc_cex :
    (lua_create_consumer badOptionsCfg stubOk).result =
      Except.error optionsErrMsg ∧
    (lua_create_consumer badOptionsCfg stubOk).confAllocated = true ∧
    (lua_create_consumer badOptionsCfg stubOk).confDestroyed = false :=
  ⟨rfl, rfl, rfl⟩

/-- If every `rd_kafka_conf_set` call succeeds and some options pair has a
key or value on which `lua_tostring` gives NULL, the options loop stops
with the options config error. -/
lemma applyOptions_bad (stub : NativeStub)
    (hset : ∀ k v, stub.conf_set k v = none) :
    ∀ ps : List (LuaValue × LuaValue),
    (∃ p ∈ ps, lua_tostring p.1 = none ∨ lua_tostring p.2 = none) →
    applyOptions stub ps = some optionsErrMsg
  | [], h => by simp at h
  | (k, v) :: rest, h => by
    rcases hvk : lua_tostring v with _ | vs
    · simp [applyOptions, hvk]
    · rcases hkk : lua_tostring k with _ | ks
      · simp [applyOptions, hvk, hkk]
      · have hrest : ∃ p ∈ rest,
            lua_tostring p.1 = none ∨ lua_tostring p.2 = none := by
          rcases h with ⟨p, hp, hbad⟩
          rcases List.mem_cons.mp hp with rfl | hp2
          · rcases hbad with hb | hb
            · rw [hkk] at hb
              exact absurd hb (by simp)
            · rw [hvk] at hb
              exact absurd hb (by simp)
          · exact ⟨p, hp2, hbad⟩
        simp [applyOptions, hvk, hkk, hset,
              applyOptions_bad stub hset rest hrest]

/-- Claim C2 amended: a config whose "brokers" entry is missing or of a
type `lua_tostring` cannot convert (note a number IS accepted, coerced to
its decimal string) fails with the brokers `ConfigError` before any
native allocation; a config whose options table holds a key or value that
is neither string nor number fails with the options `ConfigError`, but
only AFTER the native config object has been allocated, and that object
is not destroyed on this failure path (it leaks). -/
theorem create_config_error_alloc (stub : NativeStub) (cfg : ConfTable)
    (hset : ∀ k v, stub.conf_set k v = none) :
    (lua_tostring cfg.brokers = none →
      (lua_create_consumer cfg stub).result = Except.error brokersErrMsg ∧
      (lua_create_consumer cfg stub).confAllocated = false) ∧
    ∀ ps, cfg.options = some ps →
      (∃ p ∈ ps, lua_tostring p.1 = none ∨ lua_tostring p.2 = none) →
      lua_tostring cfg.brokers ≠ none →
      (lua_create_consumer cfg stub).result = Except.error optionsErrMsg ∧
      (lua_create_consumer cfg stub).confAllocated = true ∧
      (lua_create_consumer cfg stub).confDestroyed = false := by
  constructor
  · intro hb
    refine ⟨?_, ?_⟩ <;> simp [lua_create_consumer, hb]
  · intro ps hps hbad hb
    rcases hbs : lua_tostring cfg.brokers with _ | bs
    · exact absurd hbs hb
    · have hopt := applyOptions_bad stub hset ps hbad
      refine ⟨?_, ?_, ?_⟩ <;> simp [lua_create_consumer, hbs, hps, hopt]

/-- Witness for the amended C2 at a concrete stub and config. -/
theorem create_config_error_alloc_witness :
    (∀ k v, stubOk.conf_set k v = none) ∧
    badOptionsCfg.options =
      some [(LuaValue.str "debug", LuaValue.boolean true)] ∧
    (lua_create_consumer badOptionsCfg stubOk).result =
      Except.error optionsErrMsg ∧
    (lua_create_consumer badOptionsCfg stubOk).confAllocated = true ∧
    (lua_create_consumer badOptionsCfg stubOk).confDestroyed = false :=
  ⟨fun k v => rfl, rfl,
   (create_config_error_alloc stubOk badOptionsCfg (fun k v => rfl)).2
     [(LuaValue.str "debug", LuaValue.boolean true)] rfl
     ⟨(LuaValue.str "debug", LuaValue.boolean true), by simp, Or.inr rfl⟩
     (by simp [lua_tostring, badOptionsCfg])⟩

/-- Claim C10: `Consumer.create(nil)` returns nil plus the error value
"config must not be nil" synchronously, without invoking the native
create; and any error from `tnt_kafka.create_consumer` is likewise
returned as nil plus that error, with neither polling fiber spawned. -/
theorem consumer_create_error_paths (stub : NativeStub) (cfg : ConfTable) :
    Consumer_create none stub =
      { facade := none, err := some "config must not be nil"
        nativeAttempted := false, pollFiberSpawned := false
        pollMsgFiberSpawned := false } ∧
    ∀ e, (lua_create_consumer cfg stub).result = Except.error e →
      Consumer_create (some cfg) stub =
        { facade := none, err := some e, nativeAttempted := true
          pollFiberSpawned := false, pollMsgFiberSpawned := false } := by
  refine ⟨rfl, ?_⟩
  intro e he
  simp [Consumer_create, he]

/-- Witness for C10: the missing-brokers config makes the native create
fail and `Consumer.create` return nil plus that error with no fiber
spawned. -/
theorem consumer_create_error_paths_witness :
    (lua_create_consumer noBrokersCfg stubOk).result =
      Except.error brokersErrMsg ∧
    Consumer_create (some noBrokersCfg) stubOk =
      { facade := none, err := some brokersErrMsg, nativeAttempted := true
        pollFiberSpawned := false, pollMsgFiberSpawned := false } :=
  ⟨rfl, (consumer_create_error_paths stubOk noBrokersCfg).2 brokersErrMsg rfl⟩
